import Mathlib

/-!
Verification of the scene-graph transform/boundary core of the xeogl
Object component (src/src/objects/object.js) against its natural-language
specification.  The JavaScript code is shallowly embedded: each relevant
method becomes a Lean function over an explicit node/tree state, and the
mutable object graph is modelled by pure state passing.  Number-valued
state is modelled over the integers: the embedded fragment performs only
ring operations (it never divides - the transcendental angle conversions
of the math library are abstract function parameters), so ℤ is an exact
subring of the JavaScript number line adequate for every operation that
occurs, and it keeps every definition computable by kernel reduction.
Definitions marked `Modelled from the spec` embed
collaborators (the xeogl.math library and argument-classification helpers)
whose source is not part of this repository snapshot; everything else is
translated line by line from object.js.
-/

set_option linter.unusedVariables false

namespace xeogl

/-- A 3-component vector, modelling the Float32Array(3) vectors used by
object.js for positions, Euler angles, scales and RGB triples.  Components
are exact integers standing in for JavaScript numbers. -/
structure Vec3 where
  x : ℤ
  y : ℤ
  z : ℤ
deriving DecidableEq

/-- A quaternion, modelling the Float32Array(4) quaternions of object.js,
components in xeogl order (x, y, z, w). -/
structure Quat where
  x : ℤ
  y : ℤ
  z : ℤ
  w : ℤ
deriving DecidableEq

/-- The identity quaternion returned by xeogl.math.identityQuaternion(),
the initial value of the internal quaternion field in Object._init. -/
def identityQuaternion : Quat := ⟨0, 0, 0, 1⟩

/-- The combined colorize/opacity value: object.js stores the RGB colorize
multiplier in components 0..2 and the opacity multiplier in component 3 of
one Float32Array(4) field. -/
structure Color4 where
  r : ℤ
  g : ℤ
  b : ℤ
  a : ℤ
deriving DecidableEq

/-- A 4x4 matrix as the flat 16-element column-major array used by
xeogl.math (element c*4+r holds row r of column c; the translation lives
in m12, m13, m14). -/
structure Mat4 where
  m0 : ℤ
  m1 : ℤ
  m2 : ℤ
  m3 : ℤ
  m4 : ℤ
  m5 : ℤ
  m6 : ℤ
  m7 : ℤ
  m8 : ℤ
  m9 : ℤ
  m10 : ℤ
  m11 : ℤ
  m12 : ℤ
  m13 : ℤ
  m14 : ℤ
  m15 : ℤ
deriving DecidableEq

/-- The identity matrix, as returned by xeogl.math.identityMat4(). -/
def identityMat4 : Mat4 :=
  ⟨1, 0, 0, 0,
   0, 1, 0, 0,
   0, 0, 1, 0,
   0, 0, 0, 1⟩

/-- Modelled from the spec: xeogl.math.mulMat4(a, b, dest), the 4x4 matrix
product dest = a x b on column-major arrays.  The math library is not part
of this repository snapshot; the spec fixes the convention by requiring
the world matrix to be parent-world x local with parent-world on the
left. -/
def mulMat4 (a b : Mat4) : Mat4 :=
  ⟨a.m0 * b.m0 + a.m4 * b.m1 + a.m8 * b.m2 + a.m12 * b.m3,
   a.m1 * b.m0 + a.m5 * b.m1 + a.m9 * b.m2 + a.m13 * b.m3,
   a.m2 * b.m0 + a.m6 * b.m1 + a.m10 * b.m2 + a.m14 * b.m3,
   a.m3 * b.m0 + a.m7 * b.m1 + a.m11 * b.m2 + a.m15 * b.m3,
   a.m0 * b.m4 + a.m4 * b.m5 + a.m8 * b.m6 + a.m12 * b.m7,
   a.m1 * b.m4 + a.m5 * b.m5 + a.m9 * b.m6 + a.m13 * b.m7,
   a.m2 * b.m4 + a.m6 * b.m5 + a.m10 * b.m6 + a.m14 * b.m7,
   a.m3 * b.m4 + a.m7 * b.m5 + a.m11 * b.m6 + a.m15 * b.m7,
   a.m0 * b.m8 + a.m4 * b.m9 + a.m8 * b.m10 + a.m12 * b.m11,
   a.m1 * b.m8 + a.m5 * b.m9 + a.m9 * b.m10 + a.m13 * b.m11,
   a.m2 * b.m8 + a.m6 * b.m9 + a.m10 * b.m10 + a.m14 * b.m11,
   a.m3 * b.m8 + a.m7 * b.m9 + a.m11 * b.m10 + a.m15 * b.m11,
   a.m0 * b.m12 + a.m4 * b.m13 + a.m8 * b.m14 + a.m12 * b.m15,
   a.m1 * b.m12 + a.m5 * b.m13 + a.m9 * b.m14 + a.m13 * b.m15,
   a.m2 * b.m12 + a.m6 * b.m13 + a.m10 * b.m14 + a.m14 * b.m15,
   a.m3 * b.m12 + a.m7 * b.m13 + a.m11 * b.m14 + a.m15 * b.m15⟩

/-- Modelled from the spec: xeogl.math.composeMat4(position, quaternion,
scale, dest), composing the local matrix as translate-rotate-scale (the
spec fixes the TRS order: matrix composition order is translate after
rotate after scale, composed into a single 4x4).  The rotation block is
the standard rotation matrix of the quaternion, each column scaled by the
corresponding scale component, and the translation occupies m12..m14. -/
def composeMat4 (p : Vec3) (q : Quat) (s : Vec3) : Mat4 :=
  let x2 := q.x + q.x
  let y2 := q.y + q.y
  let z2 := q.z + q.z
  let xx := q.x * x2
  let xy := q.x * y2
  let xz := q.x * z2
  let yy := q.y * y2
  let yz := q.y * z2
  let zz := q.z * z2
  let wx := q.w * x2
  let wy := q.w * y2
  let wz := q.w * z2
  ⟨(1 - (yy + zz)) * s.x,
   (xy + wz) * s.x,
   (xz - wy) * s.x,
   0,
   (xy - wz) * s.y,
   (1 - (xx + zz)) * s.y,
   (yz + wx) * s.y,
   0,
   (xz + wy) * s.z,
   (yz - wx) * s.z,
   (1 - (xx + yy)) * s.z,
   0,
   p.x, p.y, p.z, 1⟩

/-- Modelled from the spec: xeogl.math.mulQuaternions(p, q, dest), the
Hamilton product dest = p x q with the first argument on the left.  The
convention is pinned by the source itself: rotateOnWorldAxis computes
mulQuaternions(q1, this.quaternion, q1) and glosses it with the comment
this.quaternion.premultiply(q1), so the first argument is the left
factor. -/
def mulQuaternions (p q : Quat) : Quat :=
  ⟨p.w * q.x + p.x * q.w + p.y * q.z - p.z * q.y,
   p.w * q.y + p.y * q.w + p.z * q.x - p.x * q.z,
   p.w * q.z + p.z * q.w + p.x * q.y - p.y * q.x,
   p.w * q.w - p.x * q.x - p.y * q.y - p.z * q.z⟩

/-- The per-node state of a xeogl.Object, collecting the underscore-prefixed
instance fields initialised in Object._init that the verified operations
read or write.  The parent back-reference is modelled by the id of the
parent object (none when the JavaScript field is null).  The child map is
modelled by its key list (keys are unique within a parent), and the lazily
cached child-id array by the flag childIDsValid (false models a null
cache).  The misspelled assignment object.highlited in addChild creates a
plain JavaScript property that no accessor watches; it is modelled by the
extra field highlited (none until that assignment runs).  The world normal
matrix value itself and the scene-level entity maps are not read by any
verified claim and are not modelled; their dirty flag is. -/
structure Obj where
  id : Nat
  sceneId : Nat
  parentId : Option Nat
  position : Vec3
  rotation : Vec3
  quaternion : Quat
  scale : Vec3
  localMatrix : Mat4
  worldMatrix : Mat4
  localMatrixDirty : Bool
  worldMatrixDirty : Bool
  worldNormalMatrixDirty : Bool
  aabbDirty : Bool
  obbDirty : Bool
  childMapIds : List Nat
  childIDsValid : Bool
  visible : Bool
  culled : Bool
  ghosted : Bool
  highlighted : Bool
  selected : Bool
  outlined : Bool
  clippable : Bool
  pickable : Bool
  collidable : Bool
  castShadow : Bool
  receiveShadow : Bool
  highlited : Option Bool
  colorize : Color4
deriving DecidableEq

mutual
/-- A xeogl.Object together with its subtree: the object state and its
ordered child list (the _childList array holds the child objects
themselves). -/
inductive Tree where
  | node (obj : Obj) (children : Forest)
/-- The ordered child list of an Object. -/
inductive Forest where
  | fnil
  | fcons (hd : Tree) (tl : Forest)
end

/-- The object state at the root of a subtree. -/
def Tree.obj : Tree → Obj
  | .node o _ => o

/-- The child list of the root of a subtree. -/
def Tree.children : Tree → Forest
  | .node _ cs => cs

/-- Replaces the object state at the root of a subtree. -/
def Tree.withObj : Tree → Obj → Tree
  | .node _ cs, o => .node o cs

/-- Number of entries of a child list (Object.numChildren reads
this._childList.length). -/
def Forest.length : Forest → Nat
  | .fnil => 0
  | .fcons _ tl => tl.length + 1

/-- Index access into a child list, as this._childList[i]. -/
def Forest.get? : Forest → Nat → Option Tree
  | .fnil, _ => none
  | .fcons hd _, 0 => some hd
  | .fcons _ tl, n + 1 => tl.get? n

/-- Replaces the entry at an index of a child list (out of range: no
change). -/
def Forest.set : Forest → Nat → Tree → Forest
  | .fnil, _, _ => .fnil
  | .fcons _ tl, 0, t => .fcons t tl
  | .fcons hd tl, n + 1, t => .fcons hd (tl.set n t)

/-- Appends a child at the end of a child list, as
this._childList.push(object). -/
def Forest.push : Forest → Tree → Forest
  | .fnil, t => .fcons t .fnil
  | .fcons hd tl, t => .fcons hd (tl.push t)

/-- The ids of the root objects of a child list, in order. -/
def Forest.rootIds : Forest → List Nat
  | .fnil => []
  | .fcons hd tl => hd.obj.id :: tl.rootIds

mutual
/-- All object states of a subtree, root first (used to state properties
of every node of a subtree). -/
def Tree.objsT : Tree → List Obj
  | .node o cs => o :: Forest.objsF cs
/-- All object states of every subtree of a child list. -/
def Forest.objsF : Forest → List Obj
  | .fnil => []
  | .fcons hd tl => Tree.objsT hd ++ Forest.objsF tl
end

/-! ## Transform management (object.js lines 725..772) -/

mutual
/-- Embeds Object._setWorldMatrixDirty (object.js lines 730..740):
invalidates the world matrix of the object and of its whole subtree,
marking worldMatrixDirty, worldNormalMatrixDirty, aabbDirty and obbDirty
on every node and recursing through the child list. -/
def setWorldMatrixDirtyT : Tree → Tree
  | .node o cs =>
      .node { o with worldMatrixDirty := true, worldNormalMatrixDirty := true,
                     aabbDirty := true, obbDirty := true }
            (setWorldMatrixDirtyF cs)
/-- The child-list loop of Object._setWorldMatrixDirty. -/
def setWorldMatrixDirtyF : Forest → Forest
  | .fnil => .fnil
  | .fcons hd tl => .fcons (setWorldMatrixDirtyT hd) (setWorldMatrixDirtyF tl)
end

/-- Embeds Object._setLocalMatrixDirty (object.js lines 725..728): marks
the local matrix dirty, then invalidates the world matrices of the
subtree. -/
def setLocalMatrixDirtyT (t : Tree) : Tree :=
  setWorldMatrixDirtyT (t.withObj { t.obj with localMatrixDirty := true })

/-- Embeds Object._buildLocalMatrix (object.js lines 742..745): rebuilds
the local matrix with xeogl.math.composeMat4(position, quaternion, scale)
and clears localMatrixDirty. -/
def buildLocalMatrix (o : Obj) : Obj :=
  { o with localMatrix := composeMat4 o.position o.quaternion o.scale,
           localMatrixDirty := false }

/-! ## Boundary invalidation (object.js lines 778..814) -/

/-- The guarded marking step shared by both walks of
Object._setBoundaryDirty: the source tests if (object._aabbDirty) and,
when the test passes, assigns object._aabbDirty = true and
object._obbDirty = true.  Note that the guard is the plain _aabbDirty
flag, not its negation, exactly as written in the source (lines 785..789
and 799..803). -/
def boundaryMark (o : Obj) : Obj :=
  if o.aabbDirty then { o with aabbDirty := true, obbDirty := true } else o

mutual
/-- Embeds the inner function setSubtreeBoundariesDirty of
Object._setBoundaryDirty (object.js lines 793..804): recurses through the
child list first, then applies the guarded marking step to the object
itself, appending the object to the notifications array when the guard
passes.  The accumulator is the notifications array (by object id, in
push order). -/
def setSubtreeBoundariesDirtyT : Tree → List Nat → Tree × List Nat
  | .node o cs, acc =>
      let r := setSubtreeBoundariesDirtyF cs acc
      (.node (boundaryMark o) r.1, if o.aabbDirty then r.2 ++ [o.id] else r.2)
/-- The child-list loop of setSubtreeBoundariesDirty. -/
def setSubtreeBoundariesDirtyF : Forest → List Nat → Forest × List Nat
  | .fnil, acc => (.fnil, acc)
  | .fcons hd tl, acc =>
      let r1 := setSubtreeBoundariesDirtyT hd acc
      let r2 := setSubtreeBoundariesDirtyF tl r1.2
      (.fcons r1.1 r2.1, r2.2)
end

/-- Embeds the inner function setParentBoundariesDirty of
Object._setBoundaryDirty (object.js lines 783..791): the loop
for (; object; object = object._parent) starts at the object itself and
climbs the parent chain, applying the guarded marking step at every
link.  The argument list is the chain of object states, the object itself
first, then its strict ancestors bottom-up. -/
def setParentBoundariesDirty : List Obj → List Nat → List Obj × List Nat
  | [], acc => ([], acc)
  | o :: rest, acc =>
      let acc1 := if o.aabbDirty then acc ++ [o.id] else acc
      let r := setParentBoundariesDirty rest acc1
      (boundaryMark o :: r.1, r.2)

/-- The result of Object._setBoundaryDirty on a node: the updated subtree
of the node, the updated states of its strict ancestors (bottom-up), and
the fired boundary events, one entry (the id of the notified object) per
call of fire, in firing order. -/
structure BoundaryResult where
  tree : Tree
  anc : List Obj
  notifs : List Nat

/-- Embeds Object._setBoundaryDirty (object.js lines 806..813): resets the
notifications array, runs setSubtreeBoundariesDirty on the node, then
setParentBoundariesDirty starting at the node itself, and finally fires a
boundary event for every collected entry in order.  The ancestors are
passed explicitly (nearest first) because the JavaScript walks the
_parent references. -/
def setBoundaryDirty (t : Tree) (anc : List Obj) : BoundaryResult :=
  let s := setSubtreeBoundariesDirtyT t []
  let p := setParentBoundariesDirty (s.1.obj :: anc) s.2
  ⟨(s.1).withObj (p.1.headD s.1.obj), p.1.tail, p.2⟩

/-! ## Lazy world-matrix read (object.js lines 747..760 and 1389..1396) -/

/-- Embeds the worldMatrix property getter together with
Object._buildWorldMatrix (object.js lines 747..760 and 1389..1396) for an
object given the chain of its ancestor states (parent first).  If the
world matrix is clean the cached value is returned and nothing changes.
Otherwise the local matrix is rebuilt when dirty; a root object copies the
local matrix into the world matrix, while a child multiplies the world
matrix of its parent, obtained through the parent getter (which lazily
rebuilds the parent in turn), by its own local matrix, parent-world on
the left.  Returns the matrix, the updated object state and the updated
ancestor chain. -/
def getWorldMatrixUp : Obj → List Obj → Mat4 × Obj × List Obj
  | o, [] =>
      if o.worldMatrixDirty then
        let o1 := if o.localMatrixDirty then buildLocalMatrix o else o
        let o2 := { o1 with worldMatrix := o1.localMatrix, worldMatrixDirty := false }
        (o2.worldMatrix, o2, [])
      else (o.worldMatrix, o, [])
  | o, p :: rest =>
      if o.worldMatrixDirty then
        let o1 := if o.localMatrixDirty then buildLocalMatrix o else o
        let r := getWorldMatrixUp p rest
        let o2 := { o1 with worldMatrix := mulMat4 r.1 o1.localMatrix,
                            worldMatrixDirty := false }
        (o2.worldMatrix, o2, r.2.1 :: r.2.2)
      else (o.worldMatrix, o, p :: rest)

/-- Reads the worldMatrix property of the node addressed by a path of
child indices from the given root, threading the cache updates of the
read through the tree.  The helper carries the ancestor states encountered
on the way down (nearest first) and writes their updated values back on
the way up.  Returns none for an invalid path. -/
def readWorldMatrixAux : Tree → List Nat → List Obj → Option (Tree × List Obj × Mat4)
  | .node o cs, [], anc =>
      let r := getWorldMatrixUp o anc
      some (.node r.2.1 cs, r.2.2, r.1)
  | .node o cs, i :: p, anc =>
      match cs.get? i with
      | none => none
      | some c =>
          match readWorldMatrixAux c p (o :: anc) with
          | none => none
          | some (c', o' :: anc', m) => some (.node o' (cs.set i c'), anc', m)
          | some (_, [], _) => none

/-- Reads the worldMatrix property of the node addressed by a path of
child indices below a root object, returning the updated tree and the
matrix. -/
def readWorldMatrix (t : Tree) (path : List Nat) : Option (Tree × Mat4) :=
  match readWorldMatrixAux t path [] with
  | none => none
  | some (t', _, m) => some (t', m)

/-! ## Recursive state setters (object.js lines 1541..1843)

Every inheritable property setter in object.js follows one pattern: coerce
the incoming value, store it on this, then loop over this._childList
assigning the same property on every child, which recurses.  The coercion
is idempotent, so the recursion assigns the same per-node update
everywhere in the subtree; the embedding factors that shared walk into
cascadeT/cascadeF and instantiates it once per property.  The scene-level
entity-map hooks guarded by this._entityType are outside the verified
core and are not modelled. -/

mutual
/-- The recursive apply-to-subtree walk shared by the inheritable property
setters: applies the per-node update to the object and to every
descendant. -/
def cascadeT (f : Obj → Obj) : Tree → Tree
  | .node o cs => .node (f o) (cascadeF f cs)
/-- The child-list loop of the inheritable property setters. -/
def cascadeF (f : Obj → Obj) : Forest → Forest
  | .fnil => .fnil
  | .fcons hd tl => .fcons (cascadeT f hd) (cascadeF f tl)
end

/-- The JavaScript coercion value !== false used by the default-true flag
setters (an absent value counts as true). -/
def coerceNeFalse (v : Option Bool) : Bool := v ≠ some false

/-- The JavaScript coercion !!value used by the default-false flag setters
(an absent value counts as false). -/
def coerceBang (v : Option Bool) : Bool := v = some true

/-- Embeds the visible property setter (object.js lines 1541..1551):
visible = visible !== false, stored and cascaded to every descendant. -/
def setVisible (v : Option Bool) : Tree → Tree :=
  cascadeT fun o => { o with visible := coerceNeFalse v }

/-- Embeds the culled property setter (object.js lines 1648..1655). -/
def setCulled (v : Option Bool) : Tree → Tree :=
  cascadeT fun o => { o with culled := coerceBang v }

/-- Embeds the ghosted property setter (object.js lines 1595..1605). -/
def setGhosted (v : Option Bool) : Tree → Tree :=
  cascadeT fun o => { o with ghosted := coerceBang v }

/-- Embeds the highlighted property setter (object.js lines 1568..1578). -/
def setHighlighted (v : Option Bool) : Tree → Tree :=
  cascadeT fun o => { o with highlighted := coerceBang v }

/-- Embeds the selected property setter (object.js lines 1622..1632). -/
def setSelected (v : Option Bool) : Tree → Tree :=
  cascadeT fun o => { o with selected := coerceBang v }

/-- Embeds the outlined property setter (object.js lines 1792..1799). -/
def setOutlined (v : Option Bool) : Tree → Tree :=
  cascadeT fun o => { o with outlined := coerceBang v }

/-- Embeds the clippable property setter (object.js lines 1670..1677). -/
def setClippable (v : Option Bool) : Tree → Tree :=
  cascadeT fun o => { o with clippable := coerceNeFalse v }

/-- Embeds the pickable property setter (object.js lines 1712..1719). -/
def setPickable (v : Option Bool) : Tree → Tree :=
  cascadeT fun o => { o with pickable := coerceNeFalse v }

/-- Embeds the collidable property setter (object.js lines 1690..1697). -/
def setCollidable (v : Option Bool) : Tree → Tree :=
  cascadeT fun o => { o with collidable := coerceNeFalse v }

/-- Embeds the castShadow property setter (object.js lines 1812..1819):
the source coerces with !!castShadow. -/
def setCastShadow (v : Option Bool) : Tree → Tree :=
  cascadeT fun o => { o with castShadow := coerceBang v }

/-- Embeds the receiveShadow property setter (object.js lines
1832..1839). -/
def setReceiveShadow (v : Option Bool) : Tree → Tree :=
  cascadeT fun o => { o with receiveShadow := coerceBang v }

/-- Embeds the colorize property setter (object.js lines 1732..1751):
stores the given RGB triple (or 1,1,1 when absent) in components 0..2 of
the combined colorize array, keeping each node its own alpha, and
cascades; the cascaded value carries the same RGB components. -/
def setColorize (v : Option Vec3) : Tree → Tree :=
  cascadeT fun o =>
    match v with
    | some rgb => { o with colorize := ⟨rgb.x, rgb.y, rgb.z, o.colorize.a⟩ }
    | none => { o with colorize := ⟨1, 1, 1, o.colorize.a⟩ }

/-- Embeds the opacity property setter (object.js lines 1766..1779):
stores the value (or 1.0 when absent) in component 3 of the combined
colorize array and cascades the raw value. -/
def setOpacity (v : Option ℤ) : Tree → Tree :=
  cascadeT fun o =>
    { o with colorize := ⟨o.colorize.r, o.colorize.g, o.colorize.b, v.getD 1⟩ }

/-! ## Transform property setters (object.js lines 1285..1381)

The Euler-to-quaternion, quaternion-to-Euler and matrix-decomposition
conversions live in the xeogl.math library, which is not part of this
repository snapshot; following the spec they are passed as explicit
function parameters (e2q models xeogl.math.eulerToQuaternion with the
fixed XYZ order, q2e models xeogl.math.quaternionToEuler, dcm models
xeogl.math.decomposeMat4).  The renderer repaint hook imageDirty is
outside the verified core. -/

/-- Embeds the position property setter (object.js lines 1285..1295):
stores the value (default 0,0,0), marks local matrix dirty (cascading
world dirtiness through the subtree) and runs the boundary-dirty
routine. -/
def setPosition (v : Option Vec3) (t : Tree) (anc : List Obj) : BoundaryResult :=
  let t1 := setLocalMatrixDirtyT
    (t.withObj { t.obj with position := v.getD ⟨0, 0, 0⟩ })
  setBoundaryDirty t1 anc

/-- Embeds the rotation property setter (object.js lines 1304..1315):
stores the Euler angles (default 0,0,0), recomputes the quaternion from
them, marks local matrix dirty and runs the boundary-dirty routine. -/
def setRotation (e2q : Vec3 → Quat) (v : Option Vec3) (t : Tree) (anc : List Obj) :
    BoundaryResult :=
  let r := v.getD ⟨0, 0, 0⟩
  let t1 := setLocalMatrixDirtyT
    (t.withObj { t.obj with rotation := r, quaternion := e2q r })
  setBoundaryDirty t1 anc

/-- Embeds the quaternion property setter (object.js lines 1324..1335):
stores the quaternion (default identity), recomputes the Euler angles
from it, marks local matrix dirty and runs the boundary-dirty routine. -/
def setQuaternion (q2e : Quat → Vec3) (v : Option Quat) (t : Tree) (anc : List Obj) :
    BoundaryResult :=
  let q := v.getD ⟨0, 0, 0, 1⟩
  let t1 := setLocalMatrixDirtyT
    (t.withObj { t.obj with quaternion := q, rotation := q2e q })
  setBoundaryDirty t1 anc

/-- Embeds the scale property setter (object.js lines 1344..1354): stores
the value (default 1,1,1), marks local matrix dirty and runs the
boundary-dirty routine. -/
def setScale (v : Option Vec3) (t : Tree) (anc : List Obj) : BoundaryResult :=
  let t1 := setLocalMatrixDirtyT
    (t.withObj { t.obj with scale := v.getD ⟨1, 1, 1⟩ })
  setBoundaryDirty t1 anc

/-- Embeds the matrix property setter (object.js lines 1363..1381): stores
the matrix (default identity), decomposes it into position, quaternion and
scale, marks the local matrix clean immediately (the stored matrix is now
authoritative), then invalidates the world matrices of the subtree and
runs the boundary-dirty routine. -/
def setMatrix (dcm : Mat4 → Vec3 × Quat × Vec3) (v : Option Mat4) (t : Tree)
    (anc : List Obj) : BoundaryResult :=
  let m := v.getD identityMat4
  let d := dcm m
  let t1 := setWorldMatrixDirtyT
    (t.withObj { t.obj with localMatrix := m, position := d.1, quaternion := d.2.1,
                            scale := d.2.2, localMatrixDirty := false })
  setBoundaryDirty t1 anc

/-! ## rotate and rotateOnWorldAxis (object.js lines 978..1017) -/

/-- Embeds Object.rotate (object.js lines 978..995) for a node given its
ancestor chain.  The parameter aaq models
xeogl.math.angleAxisToQuaternion applied to the four-element angle-axis
array built from the given axis (taken as given, without normalisation)
and the angle converted from degrees (the degree-to-radian scaling by
xeogl.math.DEGTORAD is folded into aaq, which receives the raw axis and
degree angle).  The source computes
mulQuaternions(this.quaternion, q1, q2) - the current quaternion as the
left factor - assigns q2 through the quaternion setter, then marks the
local matrix dirty and runs the boundary-dirty routine once more. -/
def rotate (aaq : Vec3 → ℤ → Quat) (q2e : Quat → Vec3) (axis : Vec3) (angle : ℤ)
    (t : Tree) (anc : List Obj) : BoundaryResult :=
  let q1 := aaq axis angle
  let q2 := mulQuaternions t.obj.quaternion q1
  let r1 := setQuaternion q2e (some q2) t anc
  let t2 := setLocalMatrixDirtyT r1.tree
  let r2 := setBoundaryDirty t2 r1.anc
  ⟨r2.tree, r2.anc, r1.notifs ++ r2.notifs⟩

/-- Embeds Object.rotateOnWorldAxis (object.js lines 1004..1017): the
method fills the shared angle-axis scratch array, converts it to a
quaternion q1, computes mulQuaternions(q1, this.quaternion, q1) into the
same scratch variable, and returns this.  The product is never assigned
back to the object (the assignment this.quaternion.premultiply(q1) is
commented out), so the returned node state is the argument itself. -/
def rotateOnWorldAxis (aaq : Vec3 → ℤ → Quat) (axis : Vec3) (angle : ℤ)
    (t : Tree) : Tree :=
  let q1 := aaq axis angle
  let q1' := mulQuaternions q1 t.obj.quaternion
  t

/-! ## removeChild (object.js lines 934..949) -/

/-- The scan of Object.removeChild: walks this._childList in order and
returns the first child whose id equals the given id (ids are unique
within a scene, so this matches the identity scan of the source, which
compares this._childList[i].id === object.id). -/
def findChildById : Forest → Nat → Option Tree
  | .fnil, _ => none
  | .fcons hd tl, cid => if hd.obj.id = cid then some hd else findChildById tl cid

/-- The result of Object.removeChild: the updated parent subtree, the
updated root-object id set of its scene, the updated ancestor states of
the parent, the removed child as mutated by the call (the JavaScript
mutates the argument object in place; the functional embedding returns it
explicitly so callers such as addChild can keep using it), and the fired
boundary events in order. -/
structure RemoveResult where
  this : Tree
  roots : List Nat
  anc : List Obj
  child : Option Tree
  notifs : List Nat

/-- Embeds Object.removeChild (object.js lines 934..949).  When no child
matches the id the call falls through the loop and returns with nothing
changed.  When a child matches at index i the source clears the child
parent reference, executes this._childList = this._childList.splice(i, 1)
- the JavaScript splice mutates the array and returns the array of
removed elements, so the assignment replaces the whole child list with
the one-element array holding the removed child - deletes the child-map
entry, nulls the cached id list, stores the child in the root-object set
of the scene, invalidates the child world matrix, runs the boundary-dirty
routine on the child (whose parent reference is already null, hence no
ancestors) and finally runs the boundary-dirty routine on this, whose
child list at that point is the one-element spliced array. -/
def removeChild (this : Tree) (roots : List Nat) (anc : List Obj) (cid : Nat) :
    RemoveResult :=
  match findChildById this.children cid with
  | none => ⟨this, roots, anc, none, []⟩
  | some c =>
      let c1 := c.withObj { c.obj with parentId := none }
      let c2 := setWorldMatrixDirtyT c1
      let b1 := setBoundaryDirty c2 []
      let this1 : Tree := .node
        { this.obj with childMapIds := this.obj.childMapIds.erase cid,
                        childIDsValid := false }
        (.fcons b1.tree .fnil)
      let roots1 := if cid ∈ roots then roots else roots ++ [cid]
      let b2 := setBoundaryDirty this1 anc
      ⟨b2.tree, roots1, b2.anc, some b1.tree, b1.notifs ++ b2.notifs⟩

/-! ## addChild (object.js lines 871..926) -/

/-- The argument classification of Object.addChild.  A numeric or string
argument (byId) is resolved through the scene registry this.scene.objects;
an Object instance (byRef) carries the value of its _parent reference:
none when the instance has no parent, or the parent object with the
root-object id set of its scene, used by the removeChild call of the
reparenting branch.  The branch for a plain configuration object (whose
Group construction is commented out in the source) and the isType guard
rejecting non-Object instances are not modelled; every Tree value is an
Object.  The ancestors of the old parent are not carried: they would only
receive further guarded boundary notifications. -/
inductive AddArg where
  | byId (oid : Nat)
  | byRef (c : Tree) (cParent : Option (Tree × List Nat))

/-- The result of Object.addChild: the updated target subtree, the updated
root-object id set and ancestor states of the target scene, the updated
former parent of the argument with its root-object id set (when the
reparenting branch ran), the returned child (addChild returns the child
object on success and undefined on the warn and error paths), the warn
and error reports, and the fired boundary events in order. -/
structure AddResult where
  this : Tree
  roots : List Nat
  anc : List Obj
  oldParent : Option (Tree × List Nat)
  ret : Option Tree
  warned : Bool
  errored : Bool
  notifs : List Nat

/-- The one-shot state inheritance block of Object.addChild (object.js
lines 908..922), run when inheritStates !== false: assigns the current
parent values through the recursive property setters of the child, in
source order.  The fourth assignment is object.highlited =
this.highlighted - the property name is misspelled in the source, so the
assignment creates a plain JavaScript property instead of invoking the
highlighted setter; it is modelled by writing the highlited field of the
child root object only, with no cascade and no change to highlighted.
The colorize assignment passes the colorize getter value (the RGB slice)
and the opacity assignment passes the alpha component. -/
def inheritFrom (p : Obj) (c : Tree) : Tree :=
  let c1 := setVisible (some p.visible) c
  let c2 := setCulled (some p.culled) c1
  let c3 := setGhosted (some p.ghosted) c2
  let c4 := c3.withObj { c3.obj with highlited := some p.highlighted }
  let c5 := setSelected (some p.selected) c4
  let c6 := setOutlined (some p.outlined) c5
  let c7 := setClippable (some p.clippable) c6
  let c8 := setPickable (some p.pickable) c7
  let c9 := setCollidable (some p.collidable) c8
  let c10 := setCastShadow (some p.castShadow) c9
  let c11 := setReceiveShadow (some p.receiveShadow) c10
  let c12 := setColorize (some ⟨p.colorize.r, p.colorize.g, p.colorize.b⟩) c11
  setOpacity (some p.colorize.a) c12

/-- The common tail of Object.addChild (object.js lines 898..925), reached
with the resolved child object: aborts with an error report when the
child belongs to a different scene (no further statement runs); otherwise
deletes the child id from the root-object set of the scene, pushes the
child onto the child list and into the child map, nulls the cached id
list, sets the child parent reference, runs the one-shot state
inheritance unless inheritStates === false, invalidates the child world
matrices and runs the boundary-dirty routine on the child, whose parent
chain now starts at this. -/
def addChildTail (this : Tree) (roots : List Nat) (anc : List Obj)
    (oldp : Option (Tree × List Nat)) (removalNotifs : List Nat)
    (c : Tree) (inheritStates : Option Bool) : AddResult :=
  if c.obj.sceneId ≠ this.obj.sceneId then
    ⟨this, roots, anc, oldp, none, false, true, removalNotifs⟩
  else
    let cid := c.obj.id
    let roots1 := roots.erase cid
    let thisObj1 := { this.obj with
      childMapIds := if cid ∈ this.obj.childMapIds then this.obj.childMapIds
                     else this.obj.childMapIds ++ [cid],
      childIDsValid := false }
    let c1 := c.withObj { c.obj with parentId := some this.obj.id }
    let c2 := if inheritStates ≠ some false then inheritFrom this.obj c1 else c1
    let c3 := setWorldMatrixDirtyT c2
    let br := setBoundaryDirty c3 (thisObj1 :: anc)
    ⟨.node (br.anc.headD thisObj1) (this.children.push br.tree),
     roots1, br.anc.tail, oldp, some br.tree, false, false, removalNotifs ++ br.notifs⟩

/-- Embeds Object.addChild (object.js lines 871..926).  A byId argument is
resolved through the scene registry (warn and return when unresolved) and
then proceeds directly to the common tail: the resolution branch performs
no parent checks, so an id naming an existing child of this is pushed
again.  A byRef argument whose parent is this warns and returns with
nothing changed; a byRef argument with a different parent is first
detached from that parent through removeChild and the mutated child then
reaches the common tail; a parentless byRef argument reaches the tail
directly. -/
def addChild (this : Tree) (roots : List Nat) (anc : List Obj)
    (objects : Nat → Option Tree) (arg : AddArg) (inheritStates : Option Bool) :
    AddResult :=
  match arg with
  | .byId oid =>
      match objects oid with
      | none => ⟨this, roots, anc, none, none, true, false, []⟩
      | some c => addChildTail this roots anc none [] c inheritStates
  | .byRef c cParent =>
      match cParent with
      | some qr =>
          if qr.1.obj.id = this.obj.id then
            ⟨this, roots, anc, cParent, none, true, false, []⟩
          else
            let rr := removeChild qr.1 qr.2 [] c.obj.id
            addChildTail this roots anc (some (rr.this, rr.roots)) rr.notifs
              (rr.child.getD c) inheritStates
      | none => addChildTail this roots anc none [] c inheritStates

/-! ## Construction (object.js lines 639..719) -/

/-- The construction configuration of a xeogl.Object, restricted to the
fields the verified claims exercise.  Absent options are none, matching
undefined configuration fields.  The guid, entityType, layer, stationary,
billboard, solid, aabbVisible and obbVisible options (registry bookkeeping,
subclass hints and helper meshes outside the verified core) and the
children and parent options (which recurse into addChild on freshly built
objects) are not modelled. -/
structure Cfg where
  id : Nat
  sceneId : Nat
  matrix : Option Mat4
  position : Option Vec3
  rotation : Option Vec3
  quaternion : Option Quat
  scale : Option Vec3
  visible : Option Bool
  culled : Option Bool
  pickable : Option Bool
  clippable : Option Bool
  collidable : Option Bool
  castShadow : Option Bool
  receiveShadow : Option Bool
  outlined : Option Bool
  ghosted : Option Bool
  highlighted : Option Bool
  selected : Option Bool
  colorize : Option Vec3
  opacity : Option ℤ

/-- The raw field initialisation of Object._init (object.js lines
643..664), before any property setter runs: no parent, empty child list
and map, null cached id list, boundaries and matrices dirty, scale
initialised by math.vec3() (the zero vector), identity quaternion, zero
rotation and position, identity local and world matrices.  Flags are
initialised to their coerced absent values (every flag setter runs during
_init and overwrites them) and the combined colorize array to
(1, 1, 1, 1), the value its lazy allocation starts from. -/
def initialObj (id sceneId : Nat) : Obj :=
  { id := id, sceneId := sceneId, parentId := none,
    position := ⟨0, 0, 0⟩, rotation := ⟨0, 0, 0⟩,
    quaternion := identityQuaternion, scale := ⟨0, 0, 0⟩,
    localMatrix := identityMat4, worldMatrix := identityMat4,
    localMatrixDirty := true, worldMatrixDirty := true,
    worldNormalMatrixDirty := true, aabbDirty := true, obbDirty := true,
    childMapIds := [], childIDsValid := false,
    visible := true, culled := false, ghosted := false, highlighted := false,
    selected := false, outlined := false, clippable := true, pickable := true,
    collidable := true, castShadow := false, receiveShadow := false,
    highlited := none, colorize := ⟨1, 1, 1, 1⟩ }

/-- Embeds Object._init (object.js lines 639..719) for a configuration
without children or parent.  When cfg.matrix is given the matrix setter
runs and the position, scale, rotation and quaternion options are ignored.
Otherwise the scale and position setters run and then the source tests
if (cfg.quaternion): the body of that branch is empty, so a supplied
quaternion is dropped and the rotation setter in the else branch is also
skipped; only when no quaternion is supplied does the rotation setter
run.  The flag, colorize and opacity setters then run in source order. -/
def initObj (e2q : Vec3 → Quat) (dcm : Mat4 → Vec3 × Quat × Vec3) (cfg : Cfg) :
    Tree :=
  let t0 : Tree := .node (initialObj cfg.id cfg.sceneId) .fnil
  let t1 :=
    match cfg.matrix with
    | some m => (setMatrix dcm (some m) t0 []).tree
    | none =>
        let ta := (setScale cfg.scale t0 []).tree
        let tb := (setPosition cfg.position ta []).tree
        match cfg.quaternion with
        | some _ => tb
        | none => (setRotation e2q cfg.rotation tb []).tree
  let t2 := setVisible cfg.visible t1
  let t3 := setCulled cfg.culled t2
  let t4 := setPickable cfg.pickable t3
  let t5 := setClippable cfg.clippable t4
  let t6 := setCollidable cfg.collidable t5
  let t7 := setCastShadow cfg.castShadow t6
  let t8 := setReceiveShadow cfg.receiveShadow t7
  let t9 := setOutlined cfg.outlined t8
  let t10 := setGhosted cfg.ghosted t9
  let t11 := setHighlighted cfg.highlighted t10
  let t12 := setSelected cfg.selected t11
  let t13 := setColorize cfg.colorize t12
  setOpacity cfg.opacity t13

/-! ## Concrete test fixtures

Closed object and tree values used by the concrete evaluations below.
initialObj gives the raw post-construction state (all matrices cached as
identity, every dirty flag set); the fixtures override the fields each
scenario needs. -/

/-- Test fixture: an object with the given id in scene 0 whose boundary
caches have been rebuilt (aabbDirty and obbDirty false), as after a read
of its aabb and obb properties. -/
def cleanBoundaryObj (i : Nat) : Obj :=
  { initialObj i 0 with aabbDirty := false, obbDirty := false }

/-- Test fixture: a parent with two leaf children, ids 1 and 2, for the
removeChild scenario. -/
def removeFixtureParent : Tree :=
  .node { initialObj 0 0 with childMapIds := [1, 2] }
    (.fcons (.node { initialObj 1 0 with parentId := some 0 } .fnil)
      (.fcons (.node { initialObj 2 0 with parentId := some 0 } .fnil) .fnil))

/-- Test fixture: the leaf child of addFixtureParent, id 1, already
attached to parent id 0. -/
def addFixtureChild : Tree :=
  .node { initialObj 1 0 with parentId := some 0 } .fnil

/-- Test fixture: a parent, id 0, holding addFixtureChild as its only
child. -/
def addFixtureParent : Tree :=
  .node { initialObj 0 0 with childMapIds := [1] } (.fcons addFixtureChild .fnil)

/-- Test fixture: the scene registry of the addChild scenarios, resolving
id 1 to the attached child. -/
def addFixtureRegistry : Nat → Option Tree :=
  fun n => if n = 1 then some addFixtureChild else none

/-- Test fixture: a highlighted parent, id 0, with no children. -/
def highlightedParent : Tree :=
  .node { initialObj 0 0 with highlighted := true } .fnil

/-- Test fixture: a non-highlighted parentless leaf, id 5, in the same
scene as highlightedParent. -/
def plainLeaf : Tree := .node (initialObj 5 0) .fnil

/-- Test fixture: a parentless target object, id 0, in scene 0, for the
cross-scene addChild scenario. -/
def sceneAParent : Tree := .node (initialObj 0 0) .fnil

/-- Test fixture: a leaf, id 11, living in scene 1 and attached to parent
id 10 of that scene. -/
def sceneBChild : Tree :=
  .node { initialObj 11 1 with parentId := some 10 } .fnil

/-- Test fixture: a parent, id 10, in scene 1, holding sceneBChild. -/
def sceneBParent : Tree :=
  .node { initialObj 10 1 with childMapIds := [11] } (.fcons sceneBChild .fnil)

/-- Test fixture: an empty scene registry. -/
def emptyRegistry : Nat → Option Tree := fun _ => none

/-- Test fixture: the root-to-child chain of testable property P1: root at
position (1, 0, 0), child at local position (0, 2, 0), identity rotation
and unit scale on both, fresh (every matrix still dirty). -/
def p1Chain : Tree :=
  .node { initialObj 0 0 with position := ⟨1, 0, 0⟩, scale := ⟨1, 1, 1⟩ }
    (.fcons (.node { initialObj 1 0 with
                     position := ⟨0, 2, 0⟩, scale := ⟨1, 1, 1⟩,
                     parentId := some 0 } .fnil) .fnil)

/-- Test fixture: an object whose local quaternion is the pure unit
quaternion j = (0, 1, 0, 0), a 180-degree rotation about the Y axis. -/
def quatJObj : Obj := { initialObj 7 0 with quaternion := ⟨0, 1, 0, 0⟩ }

/-- Test fixture: a concrete instance of the abstract angle-axis
conversion, returning the pure unit quaternion i = (1, 0, 0, 0); it is the
exact value of angleAxisToQuaternion for axis (1, 0, 0) and 180 degrees
(sine of the half angle 1, cosine 0). -/
def aaqI : Vec3 → ℤ → Quat := fun _ _ => ⟨1, 0, 0, 0⟩

/-- Test fixture: a concrete instance of the abstract quaternion-to-Euler
conversion, constantly zero. -/
def q2eZero : Quat → Vec3 := fun _ => ⟨0, 0, 0⟩

/-- Test fixture: a concrete instance of the abstract Euler-to-quaternion
conversion mapping the Euler triple (90, 0, 0) to the pure unit
quaternion i and everything else to the identity. -/
def e2qTest : Vec3 → Quat :=
  fun v => if v = ⟨90, 0, 0⟩ then ⟨1, 0, 0, 0⟩ else ⟨0, 0, 0, 1⟩

/-- Test fixture: a concrete instance of the abstract matrix
decomposition, returning zero position, identity quaternion and unit
scale. -/
def dcmTest : Mat4 → Vec3 × Quat × Vec3 :=
  fun _ => (⟨0, 0, 0⟩, ⟨0, 0, 0, 1⟩, ⟨1, 1, 1⟩)

/-- Test fixture: a construction configuration carrying a quaternion but
no matrix. -/
def cfgWithQuaternion : Cfg :=
  { id := 3, sceneId := 0, matrix := none, position := some ⟨4, 5, 6⟩,
    rotation := none, quaternion := some ⟨1, 0, 0, 0⟩, scale := none,
    visible := some true, culled := none, pickable := none, clippable := none,
    collidable := none, castShadow := none, receiveShadow := none,
    outlined := none, ghosted := none, highlighted := some true,
    selected := none, colorize := none, opacity := none }

/-- Test fixture: a three-level chain root, id 0, at position (1, 0, 0)
with every cache rebuilt (clean), for the lazy-rebuild scenario. -/
def lazyRoot : Obj :=
  { initialObj 0 0 with
    position := ⟨1, 0, 0⟩, scale := ⟨1, 1, 1⟩,
    localMatrixDirty := false, worldMatrixDirty := false,
    aabbDirty := false, obbDirty := false,
    localMatrix := composeMat4 ⟨1, 0, 0⟩ ⟨0, 0, 0, 1⟩ ⟨1, 1, 1⟩,
    worldMatrix := composeMat4 ⟨1, 0, 0⟩ ⟨0, 0, 0, 1⟩ ⟨1, 1, 1⟩ }

/-- Test fixture: the middle node of the lazy-rebuild chain, id 1, at
local position (0, 2, 0), with a dirty local matrix and a clean (stale)
world matrix. -/
def lazyChild : Obj :=
  { initialObj 1 0 with
    position := ⟨0, 2, 0⟩, scale := ⟨1, 1, 1⟩, parentId := some 0,
    localMatrixDirty := true, worldMatrixDirty := false,
    aabbDirty := false, obbDirty := false }

/-- Test fixture: the grandchild of the lazy-rebuild chain, id 2, at local
position (0, 0, 3), with every cache rebuilt (clean). -/
def lazyGrandchild : Obj :=
  { initialObj 2 0 with
    position := ⟨0, 0, 3⟩, scale := ⟨1, 1, 1⟩, parentId := some 1,
    localMatrixDirty := false, worldMatrixDirty := false,
    aabbDirty := false, obbDirty := false,
    localMatrix := composeMat4 ⟨0, 0, 3⟩ ⟨0, 0, 0, 1⟩ ⟨1, 1, 1⟩ }

/-- Test fixture: the assembled three-level lazy-rebuild chain. -/
def lazyChain : Tree :=
  .node lazyRoot
    (.fcons (.node lazyChild (.fcons (.node lazyGrandchild .fnil) .fnil)) .fnil)

/-! ## Helper lemmas -/

/-- The recursive apply-to-subtree walk updates the root object with the
per-node function. -/
theorem cascadeT_obj (f : Obj → Obj) (t : Tree) : (cascadeT f t).obj = f t.obj := by
  rcases t with ⟨o, cs⟩; rfl

/-- Root-object effect of the scale setter. -/
theorem setScale_tree_obj (v : Option Vec3) (t : Tree) (anc : List Obj) :
    (setScale v t anc).tree.obj =
      { t.obj with scale := v.getD ⟨1, 1, 1⟩, localMatrixDirty := true,
                   worldMatrixDirty := true, worldNormalMatrixDirty := true,
                   aabbDirty := true, obbDirty := true } := by
  rcases t with ⟨o, cs⟩; rfl

/-- Root-object effect of the position setter. -/
theorem setPosition_tree_obj (v : Option Vec3) (t : Tree) (anc : List Obj) :
    (setPosition v t anc).tree.obj =
      { t.obj with position := v.getD ⟨0, 0, 0⟩, localMatrixDirty := true,
                   worldMatrixDirty := true, worldNormalMatrixDirty := true,
                   aabbDirty := true, obbDirty := true } := by
  rcases t with ⟨o, cs⟩; rfl

/-- The boundary-dirty routine rewrites the root object by the guarded
marking step twice: once in the subtree walk and once more as the first
link of the ancestor walk, which starts at the object itself. -/
theorem setBoundaryDirty_tree_obj (t : Tree) (anc : List Obj) :
    (setBoundaryDirty t anc).tree.obj = boundaryMark (boundaryMark t.obj) := by
  rcases t with ⟨o, cs⟩; rfl

/-- Root-object effect of the world-matrix invalidation cascade. -/
theorem setWorldMatrixDirtyT_obj (t : Tree) :
    (setWorldMatrixDirtyT t).obj =
      { t.obj with
        worldMatrixDirty := true, worldNormalMatrixDirty := true,
        aabbDirty := true, obbDirty := true } := by
  rcases t with ⟨o, cs⟩; rfl

mutual
/-- Every object of the subtree returned by the world-matrix invalidation
cascade has its world and world-normal matrices marked dirty. -/
theorem setWorldMatrixDirty_marks_tree :
    ∀ t : Tree, ∀ o ∈ (setWorldMatrixDirtyT t).objsT,
      o.worldMatrixDirty = true ∧ o.worldNormalMatrixDirty = true
  | .node s cs => by
      intro o ho
      simp only [setWorldMatrixDirtyT, Tree.objsT, List.mem_cons] at ho
      rcases ho with h | h
      · subst h; exact ⟨rfl, rfl⟩
      · exact setWorldMatrixDirty_marks_forest cs o h
/-- Forest version of setWorldMatrixDirty_marks_tree. -/
theorem setWorldMatrixDirty_marks_forest :
    ∀ ts : Forest, ∀ o ∈ (setWorldMatrixDirtyF ts).objsF,
      o.worldMatrixDirty = true ∧ o.worldNormalMatrixDirty = true
  | .fnil => by intro o ho; simp [setWorldMatrixDirtyF, Forest.objsF] at ho
  | .fcons hd tl => by
      intro o ho
      simp only [setWorldMatrixDirtyF, Forest.objsF, List.mem_append] at ho
      rcases ho with h | h
      · exact setWorldMatrixDirty_marks_tree hd o h
      · exact setWorldMatrixDirty_marks_forest tl o h
end

/-- The three-level lazy-read computation: after the rotation setter runs
on the root of a root-child-grandchild chain, reading the worldMatrix of
the grandchild returns the product of the three current local matrices,
each rebuilt from the current TRS state (the caches of the child and the
grandchild are assumed coherent when their local matrices are clean). -/
theorem lazy_read_three_chain (e2q : Vec3 → Quat) (v : Option Vec3) (r c g : Obj)
    (hc : c.localMatrixDirty = false →
      c.localMatrix = composeMat4 c.position c.quaternion c.scale)
    (hg : g.localMatrixDirty = false →
      g.localMatrix = composeMat4 g.position g.quaternion g.scale) :
    (readWorldMatrix (setRotation e2q v
        (.node r (.fcons (.node c (.fcons (.node g .fnil) .fnil)) .fnil)) []).tree
      [0, 0]).map (fun x => x.2) =
      some (mulMat4 (mulMat4 (composeMat4 r.position (e2q (v.getD ⟨0, 0, 0⟩)) r.scale)
        (composeMat4 c.position c.quaternion c.scale))
        (composeMat4 g.position g.quaternion g.scale)) := by
  rcases hcb : c.localMatrixDirty with _ | _ <;>
    rcases hgb : g.localMatrixDirty with _ | _ <;>
    simp [setRotation, setLocalMatrixDirtyT, setWorldMatrixDirtyT, setWorldMatrixDirtyF,
      setBoundaryDirty, setSubtreeBoundariesDirtyT, setSubtreeBoundariesDirtyF,
      setParentBoundariesDirty, boundaryMark, Tree.withObj, Tree.obj, Tree.children,
      readWorldMatrix, readWorldMatrixAux, Forest.get?, Forest.set, getWorldMatrixUp,
      buildLocalMatrix, hcb, hgb, hc, hg]

/-- The child object returned by removeChild for a found child keeps its
scene: the detach mutations (parent cleared, world matrices invalidated,
boundary walk) never touch the sceneId. -/
theorem removeChild_child_sceneId (q : Tree) (qRoots : List Nat) (c : Tree)
    (h : findChildById q.children c.obj.id = some c) (d : Tree) :
    ((removeChild q qRoots [] c.obj.id).child.getD d).obj.sceneId = c.obj.sceneId := by
  rcases c with ⟨co, ccs⟩
  simp only [removeChild, h]
  simp only [Option.getD_some, setBoundaryDirty_tree_obj, setWorldMatrixDirtyT_obj]
  simp [boundaryMark, Tree.obj, Tree.withObj]

/-! ## Claim theorems -/

/-- Claim C1 (code_bug evaluation).  The claim states that the
boundary-invalidation routine marks the AABB and OBB dirty on every node
of the subtree and on every strict ancestor, firing the boundary event
exactly once per distinct touched node.  The source guard is inverted: it
reads if (object._aabbDirty) where the intent (per its own comment,
"Invalidates AABB and OBB boundaries of the Object and parent Objects")
requires the negation, so only nodes that are already dirty are
re-marked and notified.  At a parent and child whose boundary caches are
both clean, running the routine on the child leaves the parent clean and
fires no event at all; and when the child is dirty, the child is notified
twice in the same pass (once by the subtree walk and once by the
ancestor walk, which also starts at the node itself). -/
theorem setBoundaryDirty_inverted_guard_eval :
    (setBoundaryDirty (.node (cleanBoundaryObj 1) .fnil) [cleanBoundaryObj 0]).notifs
        = [] ∧
    ((setBoundaryDirty (.node (cleanBoundaryObj 1) .fnil) [cleanBoundaryObj 0]).anc.map
        (fun o => (o.aabbDirty, o.obbDirty))) = [(false, false)] ∧
    (setBoundaryDirty (.node (initialObj 1 0) .fnil) [cleanBoundaryObj 0]).notifs
        = [1, 1] := by
  exact ⟨by decide, by decide, by decide⟩

/-- Claim C2 (code_bug evaluation).  The claim states that
removeChild(ci) leaves the child list equal to the original list with
only ci removed.  The source executes this._childList =
this._childList.splice(i, 1): JavaScript splice returns the array of
removed elements, so the assignment replaces the child list with the
one-element array holding the removed child.  For a parent with children
ids (1, 2), removing child 1 leaves the child list holding exactly child
1 (not child 2); the child map, the cleared parent reference and the
root-set re-registration behave as the claim says. -/
theorem removeChild_splice_eval :
    (removeChild removeFixtureParent [0] [] 1).this.children.rootIds = [1] ∧
    (removeChild removeFixtureParent [0] [] 1).this.children.length = 1 ∧
    (removeChild removeFixtureParent [0] [] 1).this.obj.childMapIds = [2] ∧
    ((removeChild removeFixtureParent [0] [] 1).child.map
        (fun c => c.obj.parentId)) = some none ∧
    (removeChild removeFixtureParent [0] [] 1).roots = [0, 1] := by
  exact ⟨by decide, by decide, by decide, by decide, by decide⟩

/-- Claim C5 (code_bug evaluation).  The claim states that addChild with
a node already a direct child is a no-op with a warning whether the node
is passed as a reference or as its id.  The already-child guard sits only
in the instance branch of addChild: the id branch resolves through the
scene registry and falls straight through to the common tail, so passing
the id of an existing child pushes a duplicate entry onto the child list
(child count 2, ids (1, 1)) without any warning, while passing the same
node by reference warns and changes nothing. -/
theorem addChild_byId_duplicate_eval :
    (addChild addFixtureParent [0] [] addFixtureRegistry (.byId 1) none).this.children.rootIds
        = [1, 1] ∧
    (addChild addFixtureParent [0] [] addFixtureRegistry (.byId 1) none).this.children.length
        = 2 ∧
    (addChild addFixtureParent [0] [] addFixtureRegistry (.byId 1) none).warned = false ∧
    (addChild addFixtureParent [0] [] addFixtureRegistry
        (.byRef addFixtureChild (some (addFixtureParent, [0]))) none).warned = true ∧
    (addChild addFixtureParent [0] [] addFixtureRegistry
        (.byRef addFixtureChild (some (addFixtureParent, [0]))) none).this
        = addFixtureParent := by
  exact ⟨by decide, by decide, by decide, by decide, rfl⟩

/-- Claim C7 (code_bug evaluation).  The claim states that a successful
addChild with inheritStates not false copies the parent highlighted flag
onto the child.  The source line is object.highlited = this.highlighted:
the property name is misspelled, so the assignment creates a stray plain
property and never invokes the highlighted setter.  Adding a
non-highlighted leaf to a highlighted parent leaves the child highlighted
flag false while the stray highlited property receives true. -/
theorem addChild_highlited_typo_eval :
    ((addChild highlightedParent [0, 5] [] emptyRegistry (.byRef plainLeaf none)
        none).ret.map (fun c => (c.obj.highlighted, c.obj.highlited)))
        = some (false, some true) ∧
    highlightedParent.obj.highlighted = true ∧
    ((addChild highlightedParent [0, 5] [] emptyRegistry (.byRef plainLeaf none)
        none).ret.map (fun c => c.obj.visible)) = some true := by
  exact ⟨by decide, by decide, by decide⟩

/-- Claim C8 (counterexample).  The claim states that rotate(axis, angle)
left-multiplies the angle-axis quaternion q onto the current quaternion,
storing q x current.  The source computes mulQuaternions(this.quaternion,
q1, q2), the current quaternion on the left.  With current quaternion
j = (0, 1, 0, 0) and an angle-axis conversion yielding i = (1, 0, 0, 0),
the stored result is j x i = (0, 0, -1, 0), while the claimed product
i x j is (0, 0, 1, 0); the two differ. -/
theorem rotate_left_multiply_counterexample :
    (rotate aaqI q2eZero ⟨1, 0, 0⟩ 180 (.node quatJObj .fnil) []).tree.obj.quaternion
        = ⟨0, 0, -1, 0⟩ ∧
    mulQuaternions (aaqI ⟨1, 0, 0⟩ 180) quatJObj.quaternion = ⟨0, 0, 1, 0⟩ ∧
    ((⟨0, 0, -1, 0⟩ : Quat) ≠ ⟨0, 0, 1, 0⟩) := by
  exact ⟨by decide, by decide, by decide⟩

/-- Claim C10 (confirmed).  rotateOnWorldAxis computes the angle-axis
quaternion and its product with the current quaternion into local
temporaries only and never assigns the product back: for every node,
axis, angle and angle-axis conversion, the returned node - the method
returns this - is exactly the argument, so quaternion, rotation, local
and world matrices, dirty flags and boundaries are all unchanged. -/
theorem rotateOnWorldAxis_no_observable_effect
    (aaq : Vec3 → ℤ → Quat) (axis : Vec3) (angle : ℤ) (t : Tree) :
    rotateOnWorldAxis aaq axis angle t = t := rfl

/-- Claim C3 (confirmed).  A node rebuilding its world matrix computes
parent.worldMatrix x localMatrix with the parent world matrix (obtained
through the parent lazy getter) on the left, or copies the local matrix
alone when it has no parent; in particular, for the two-level chain with
root position (1, 0, 0), child local position (0, 2, 0), identity
rotation and unit scale on both, the translation column (m12, m13, m14)
of the child world matrix is (1, 2, 0).  The matrix product and the TRS
composition are the spec-modelled embeddings of the external math
library. -/
theorem worldMatrix_composition (o p : Obj) (rest : List Obj)
    (h : o.worldMatrixDirty = true) :
    (getWorldMatrixUp o []).1 =
      (if o.localMatrixDirty then buildLocalMatrix o else o).localMatrix ∧
    (getWorldMatrixUp o (p :: rest)).1 =
      mulMat4 (getWorldMatrixUp p rest).1
        ((if o.localMatrixDirty then buildLocalMatrix o else o).localMatrix) ∧
    (readWorldMatrix p1Chain [0]).map (fun x => (x.2.m12, x.2.m13, x.2.m14))
        = some (1, 2, 0) := by
  refine ⟨?_, ?_, by decide⟩
  · simp [getWorldMatrixUp, h]
  · simp [getWorldMatrixUp, h]

/-- Witness for claim C3: the composition law instantiated at freshly
constructed objects (both dirty), with the hypothesis discharged by
evaluation. -/
theorem worldMatrix_composition_witness :
    (getWorldMatrixUp (initialObj 0 0) []).1 =
      (if (initialObj 0 0).localMatrixDirty then buildLocalMatrix (initialObj 0 0)
       else initialObj 0 0).localMatrix ∧
    (getWorldMatrixUp (initialObj 0 0) [initialObj 1 0]).1 =
      mulMat4 (getWorldMatrixUp (initialObj 1 0) []).1
        ((if (initialObj 0 0).localMatrixDirty then buildLocalMatrix (initialObj 0 0)
          else initialObj 0 0).localMatrix) ∧
    (readWorldMatrix p1Chain [0]).map (fun x => (x.2.m12, x.2.m13, x.2.m14))
        = some (1, 2, 0) :=
  worldMatrix_composition (initialObj 0 0) (initialObj 1 0) [] (by decide)

/-- Claim C4 (confirmed).  Marking a node world-matrix dirty marks
worldMatrixDirty and worldNormalMatrixDirty on every node of its subtree;
consequently, after running the rotation setter on the root of a
root-child-grandchild chain, merely reading the grandchild worldMatrix
returns the product of the three local matrices rebuilt from the current
TRS state - the new root rotation included - with no other call needed
(the stale caches of the intermediate nodes are assumed coherent: a clean
local matrix equals the composition of its TRS state). -/
theorem setWorldMatrixDirty_subtree_lazy_read :
    (∀ t : Tree, ∀ o ∈ (setWorldMatrixDirtyT t).objsT,
      o.worldMatrixDirty = true ∧ o.worldNormalMatrixDirty = true) ∧
    (∀ (e2q : Vec3 → Quat) (v : Option Vec3) (r c g : Obj),
      (c.localMatrixDirty = false →
        c.localMatrix = composeMat4 c.position c.quaternion c.scale) →
      (g.localMatrixDirty = false →
        g.localMatrix = composeMat4 g.position g.quaternion g.scale) →
      (readWorldMatrix (setRotation e2q v
          (.node r (.fcons (.node c (.fcons (.node g .fnil) .fnil)) .fnil)) []).tree
        [0, 0]).map (fun x => x.2) =
        some (mulMat4 (mulMat4 (composeMat4 r.position (e2q (v.getD ⟨0, 0, 0⟩)) r.scale)
          (composeMat4 c.position c.quaternion c.scale))
          (composeMat4 g.position g.quaternion g.scale))) :=
  ⟨setWorldMatrixDirty_marks_tree,
   fun e2q v r c g hc hg => lazy_read_three_chain e2q v r c g hc hg⟩

/-- Witness for claim C4: the lazy read instantiated at the concrete
clean three-level chain, rotating the root by 90 degrees about X (the
test conversion maps that Euler triple to the pure quaternion i); both
coherence hypotheses are discharged by evaluation. -/
theorem setWorldMatrixDirty_subtree_lazy_read_witness :
    (readWorldMatrix (setRotation e2qTest (some ⟨90, 0, 0⟩)
        (.node lazyRoot (.fcons (.node lazyChild
          (.fcons (.node lazyGrandchild .fnil) .fnil)) .fnil)) []).tree
      [0, 0]).map (fun x => x.2) =
      some (mulMat4 (mulMat4 (composeMat4 lazyRoot.position
        (e2qTest ((some (⟨90, 0, 0⟩ : Vec3)).getD ⟨0, 0, 0⟩)) lazyRoot.scale)
        (composeMat4 lazyChild.position lazyChild.quaternion lazyChild.scale))
        (composeMat4 lazyGrandchild.position lazyGrandchild.quaternion
          lazyGrandchild.scale)) :=
  setWorldMatrixDirty_subtree_lazy_read.2 e2qTest (some ⟨90, 0, 0⟩) lazyRoot lazyChild
    lazyGrandchild (by decide) (by decide)

/-- Claim C6 (counterexample).  The claim states that a cross-scene
addChild aborts with no state mutated, the node keeping whatever parent
it had.  In the source the reparenting detach (object._parent.removeChild)
runs before the cross-scene check, so a cross-scene node that had a
parent has already been detached when the call aborts: at the concrete
input (scene-0 target, scene-1 child attached to a scene-1 parent) the
call errors, yet the child parent reference is cleared (it was some 10
before) and the child id has been added to the root-object set of its
scene. -/
theorem addChild_crossScene_mutates_eval :
    (addChild sceneAParent [0] [] emptyRegistry
        (.byRef sceneBChild (some (sceneBParent, [10]))) none).errored = true ∧
    ((sceneBParent.children.get? 0).map (fun t => t.obj.parentId)) = some (some 10) ∧
    ((addChild sceneAParent [0] [] emptyRegistry
        (.byRef sceneBChild (some (sceneBParent, [10]))) none).oldParent.map
      (fun x => (x.1.children.get? 0).map (fun t => t.obj.parentId)))
        = some (some none) ∧
    ((addChild sceneAParent [0] [] emptyRegistry
        (.byRef sceneBChild (some (sceneBParent, [10]))) none).oldParent.map
      (fun x => x.2)) = some [10, 11] ∧
    (addChild sceneAParent [0] [] emptyRegistry
        (.byRef sceneBChild (some (sceneBParent, [10]))) none).this.children.length
        = 0 ∧
    (addChild sceneAParent [0] [] emptyRegistry
        (.byRef sceneBChild (some (sceneBParent, [10]))) none).roots = [0] := by
  exact ⟨by decide, by decide, by decide, by decide, by decide, by decide⟩

/-- Claim C6 (amended, proved).  A cross-scene addChild (node passed by
reference, currently attached to a different parent in its own scene)
aborts with an error report and leaves the target untouched - its child
list, root-object set and ancestors are unchanged and nothing is returned
- but the detach has already happened: the final state of the former
parent and of its scene root set is exactly the removeChild result, in
which the child parent reference is cleared and the child id re-added to
the root set of its scene. -/
theorem addChild_crossScene_aborts_after_detach (p c q : Tree)
    (roots qRoots : List Nat) (anc : List Obj) (objects : Nat → Option Tree)
    (inh : Option Bool)
    (hid : q.obj.id ≠ p.obj.id)
    (hfound : findChildById q.children c.obj.id = some c)
    (hscene : c.obj.sceneId ≠ p.obj.sceneId) :
    addChild p roots anc objects (.byRef c (some (q, qRoots))) inh =
      ⟨p, roots, anc,
       some ((removeChild q qRoots [] c.obj.id).this,
             (removeChild q qRoots [] c.obj.id).roots),
       none, false, true, (removeChild q qRoots [] c.obj.id).notifs⟩ := by
  have hs := removeChild_child_sceneId q qRoots c hfound c
  simp only [addChild, addChildTail, hs, hscene]
  simp [hid, hscene]

/-- Witness for the amended claim C6, instantiated at the concrete
two-scene fixture; the identity, membership and scene hypotheses are
discharged by evaluation. -/
theorem addChild_crossScene_aborts_after_detach_witness :
    addChild sceneAParent [0] [] emptyRegistry
        (.byRef sceneBChild (some (sceneBParent, [10]))) none =
      ⟨sceneAParent, [0], [],
       some ((removeChild sceneBParent [10] [] sceneBChild.obj.id).this,
             (removeChild sceneBParent [10] [] sceneBChild.obj.id).roots),
       none, false, true,
       (removeChild sceneBParent [10] [] sceneBChild.obj.id).notifs⟩ :=
  addChild_crossScene_aborts_after_detach sceneAParent sceneBChild sceneBParent
    [0] [10] [] emptyRegistry none (by decide) rfl (by decide)

/-- Claim C8 (amended, proved).  rotate(axis, angle) converts the
angle-axis pair to a quaternion q through the abstract conversion (axis
taken as given, degree scaling folded into the conversion) and
right-multiplies it onto the current local quaternion: the stored
quaternion becomes current x q (the source computes
mulQuaternions(this.quaternion, q1, q2), current on the left), the
stored Euler angles are recomputed from the product, and the local
matrix, world matrix and both boundary volumes are marked dirty. -/
theorem rotate_right_multiplies (aaq : Vec3 → ℤ → Quat) (q2e : Quat → Vec3)
    (axis : Vec3) (angle : ℤ) (t : Tree) (anc : List Obj) :
    (rotate aaq q2e axis angle t anc).tree.obj.quaternion =
      mulQuaternions t.obj.quaternion (aaq axis angle) ∧
    (rotate aaq q2e axis angle t anc).tree.obj.rotation =
      q2e (mulQuaternions t.obj.quaternion (aaq axis angle)) ∧
    (rotate aaq q2e axis angle t anc).tree.obj.localMatrixDirty = true ∧
    (rotate aaq q2e axis angle t anc).tree.obj.worldMatrixDirty = true ∧
    (rotate aaq q2e axis angle t anc).tree.obj.aabbDirty = true ∧
    (rotate aaq q2e axis angle t anc).tree.obj.obbDirty = true := by
  rcases t with ⟨o, cs⟩
  exact ⟨rfl, rfl, rfl, rfl, rfl, rfl⟩

/-- Claim C9 (confirmed).  For every construction configuration that
supplies a quaternion but no matrix, the supplied quaternion is silently
ignored: the branch testing cfg.quaternion has an empty body and its else
branch (the rotation setter) is skipped too, so the constructed node
keeps the identity quaternion and the zero Euler rotation it was
initialised with, whatever quaternion was supplied. -/
theorem init_quaternion_silently_ignored (e2q : Vec3 → Quat)
    (dcm : Mat4 → Vec3 × Quat × Vec3) (cfg : Cfg) (q : Quat)
    (hm : cfg.matrix = none) (hq : cfg.quaternion = some q) :
    (initObj e2q dcm cfg).obj.quaternion = identityQuaternion ∧
    (initObj e2q dcm cfg).obj.rotation = ⟨0, 0, 0⟩ := by
  rcases cfg with ⟨i, s, m, pos, r, qq, sc, f1, f2, f3, f4, f5, f6, f7, f8, f9, f10,
    f11, co, op⟩
  subst hm
  subst hq
  simp only [initObj, setVisible, setCulled, setPickable, setClippable, setCollidable,
    setCastShadow, setReceiveShadow, setOutlined, setGhosted, setHighlighted,
    setSelected, setColorize, setOpacity, cascadeT_obj, setPosition_tree_obj,
    setScale_tree_obj]
  rcases co with _ | rgb
  · exact ⟨rfl, rfl⟩
  · exact ⟨rfl, rfl⟩

/-- Witness for claim C9: a concrete configuration carrying the
quaternion i and no matrix yields a node whose quaternion is the
identity. -/
theorem init_quaternion_silently_ignored_witness :
    (initObj e2qTest dcmTest cfgWithQuaternion).obj.quaternion = identityQuaternion ∧
    (initObj e2qTest dcmTest cfgWithQuaternion).obj.rotation = ⟨0, 0, 0⟩ :=
  init_quaternion_silently_ignored e2qTest dcmTest cfgWithQuaternion ⟨1, 0, 0, 0⟩
    rfl rfl

end xeogl
